import Mathlib

/-!
Verification of callisto_core.delivery.models (Report, RecordHistorical,
MatchReport): the dual-path record encryption pipeline and the
identifier-matching protocol.

The orchestration code (Report.encrypt_record / decrypt_record /
withdraw_from_matching / encryption_setup, MatchReport.encrypt_match_report /
get_match) is embedded directly from src/callisto_core/delivery/models.py.
Django model instances become pure state records; mutation becomes explicit
state passing; each call to get_random_string() becomes an explicit fresh-salt
argument; self.save() persists the modelled fields and updates a timestamp
(the timestamp, driven by the wall clock, is not modelled).

The crypto helper modules (hashers, security, model_helpers, utils) are
imported by models.py but are not part of the sources at hand; they are
modelled from the spec (sections 4.1-4.4 and 6), in the standard idealized
style: a derived key is the tuple of derivation parameters and secret
(derivation is deterministic and, ideally, collision-free in the secret), an
authenticated ciphertext remembers the exact key that produced it and
decryption under any other key fails, and the pepper wraps a ciphertext with
the process-wide pepper secret.
-/

/-- Modelled from the spec: the parsed form of the stored
"algorithm$iterations$salt$" parameter string produced by `hashers`
(the `encode_prefix` column). A present value always serializes to a
non-empty string. -/
structure EncodePrefix where
  /-- The key-derivation algorithm identifier. -/
  algorithm : String
  /-- The work-factor / iteration count. -/
  iterations : Nat
  /-- The random salt recorded alongside the ciphertext. -/
  salt : String
deriving DecidableEq, Repr

/-- Modelled from the spec: a derived symmetric key. Key derivation is
deterministic in (algorithm, iterations, salt, secret) and idealized as
injective, so a key is represented by that tuple. -/
structure DerivedKey where
  algorithm : String
  iterations : Nat
  salt : String
  secret : String
deriving DecidableEq, Repr

/-- Modelled from the spec: a key-derivation algorithm (`hashers` hasher
object), identified by algorithm id and iteration count. -/
structure Hasher where
  algorithm : String
  iterations : Nat
deriving DecidableEq, Repr

/-- Modelled from the spec: hashers.get_hasher() returns the current default
algorithm and work factor. -/
def get_hasher : Hasher :=
  { algorithm := "argon2", iterations := 2 }

/-- Modelled from the spec: the result of hasher.encode(secret, salt) — in the
source a single delimited string "algorithm$iterations$salt$hash", here kept
in parsed form as the parameter part plus the derived key part. -/
structure Encoded where
  params : EncodePrefix
  key : DerivedKey
deriving DecidableEq, Repr

/-- Modelled from the spec: hasher.encode(secret, salt) derives a key from the
secret and the salt under this hasher's algorithm and iteration count, and
records the self-describing derivation parameters. -/
def Hasher.encode (h : Hasher) (secret salt : String) : Encoded :=
  { params := { algorithm := h.algorithm, iterations := h.iterations, salt := salt }
    key := { algorithm := h.algorithm, iterations := h.iterations, salt := salt
             secret := secret } }

/-- Modelled from the spec: hasher.split_encoded(encoded) splits an encoded
string into the storable parameter part and the derived key part. -/
def Hasher.split_encoded (_h : Hasher) (e : Encoded) : EncodePrefix × DerivedKey :=
  (e.params, e.key)

/-- Modelled from the spec: hashers.make_key(stored, secret, legacy_salt)
re-derives a key. When a stored parameter string is present it is parsed and
used exactly (this keeps old ciphertexts decryptable); otherwise the legacy
standalone salt column is used with the legacy algorithm. -/
def make_key (stored : Option EncodePrefix) (secret : String)
    (legacySalt : Option String) : Option EncodePrefix × DerivedKey :=
  match stored with
  | some p =>
      (some p,
        { algorithm := p.algorithm, iterations := p.iterations, salt := p.salt
          secret := secret })
  | none =>
      (none,
        { algorithm := "pbkdf2_legacy", iterations := 1
          salt := legacySalt.getD "", secret := secret })

/-- The error raised by nacl / security.decrypt_text on a failed authenticated
decryption (the spec's DecryptionFailed). -/
inductive CryptoError
  | cryptoError
deriving DecidableEq, Repr

/-- Modelled from the spec: an authenticated symmetric ciphertext. In the
idealized model it remembers the exact key it was produced under, and
decryption checks that key. -/
structure Ciphertext (α : Type) where
  key : DerivedKey
  plaintext : α
deriving DecidableEq, Repr

/-- Modelled from the spec: security.encrypt_text(key, text) — authenticated
symmetric encryption. -/
def encrypt_text {α : Type} (key : DerivedKey) (text : α) : Ciphertext α :=
  { key := key, plaintext := text }

/-- Modelled from the spec: security.decrypt_text(key, ciphertext) —
authenticated decryption; with any key other than the encryption key it
raises CryptoError instead of returning wrong plaintext. -/
def decrypt_text {α : Type} (key : DerivedKey) (c : Ciphertext α) :
    Except CryptoError α :=
  if c.key = key then Except.ok c.plaintext else Except.error CryptoError.cryptoError

/-- The error raised by security.unpepper on a pepper mismatch (the spec's
InvalidPepper). -/
inductive PepperError
  | invalidPepper
deriving DecidableEq, Repr

/-- Modelled from the spec: a peppered ciphertext — a ciphertext wrapped with
the process-wide server-side pepper secret, independent of any derived key. -/
structure PepperedText (α : Type) where
  pepperSecret : String
  inner : Ciphertext α
deriving DecidableEq, Repr

/-- Modelled from the spec: the escrow public key consumed from configuration
(settings.CALLISTO_EVAL_PUBLIC_KEY); an invalid key makes escrow encryption
raise. -/
inductive PublicKey
  | valid (keyData : String)
  | invalid
deriving DecidableEq, Repr

/-- Modelled from the spec: the process-wide configuration — the organization
escrow public key and the pepper secret — constructed once at process start
and passed in explicitly. -/
structure Config where
  evalPublicKey : PublicKey
  pepperSecret : String
deriving DecidableEq, Repr

/-- Modelled from the spec: security.pepper(ciphertext) wraps a ciphertext
with the process-wide pepper secret. -/
def pepper {α : Type} (cfg : Config) (c : Ciphertext α) : PepperedText α :=
  { pepperSecret := cfg.pepperSecret, inner := c }

/-- Modelled from the spec: security.unpepper(peppered) removes the pepper
layer, failing on a pepper mismatch. -/
def unpepper {α : Type} (cfg : Config) (p : PepperedText α) :
    Except PepperError (Ciphertext α) :=
  if p.pepperSecret = cfg.pepperSecret then Except.ok p.inner
  else Except.error PepperError.invalidPepper

/-- Structured record data as produced by json.loads: the current keyed
mapping shape or the legacy ordered list shape (answer values kept opaque as
strings). -/
inductive RecordData
  | dict (entries : List (String × String))
  | list (items : List String)
deriving DecidableEq, Repr

/-- A decrypted plaintext string: either the json.dumps serialization of
structured data (on which json.loads succeeds and is inverse), or a raw
pre-structured legacy string on which json.loads raises JSONDecodeError. -/
inductive RecordPlaintext
  | jsonData (data : RecordData)
  | rawText (text : String)
deriving DecidableEq, Repr

/-- The error raised by model_helpers.gpg_encrypt_data on escrow encryption
failure (the spec's EscrowEncryptionFailed, e.g. an invalid public key). -/
inductive EscrowError
  | escrowEncryptionFailed
deriving DecidableEq, Repr

/-- Modelled from the spec: an asymmetric escrow ciphertext — one-way
encryption of filtered record data to the organization public key; no
decryption capability exists in this system. -/
structure EscrowBlob where
  publicKey : String
  payload : RecordData
deriving DecidableEq, Repr

/-- Modelled from the spec: model_helpers.filter_record_data strips the
non-escrowable (skip-eval) fields; the core treats it as an opaque pure
function, modelled here as the identity. -/
def filter_record_data (data : RecordData) : RecordData := data

/-- Modelled from the spec: model_helpers.gpg_encrypt_data encrypts the
filtered data to the configured public key, raising on failure (simulated by
an invalid public key). -/
def gpg_encrypt_data (data : RecordData) (key : PublicKey) :
    Except EscrowError EscrowBlob :=
  match key with
  | PublicKey.valid keyData => Except.ok { publicKey := keyData, payload := data }
  | PublicKey.invalid => Except.error EscrowError.escrowEncryptionFailed

/-- Modelled from the spec: utils.RecordDataUtil.transform_if_old_format
turns legacy list-shaped data into the current keyed-mapping shape (here:
index-keyed); data already in the current shape is returned unchanged. -/
def transform_if_old_format (data : RecordData) : RecordData :=
  match data with
  | RecordData.list items =>
      RecordData.dict (items.enum.map (fun p => (toString p.1, p.2)))
  | RecordData.dict entries => RecordData.dict entries

/-- Python truthiness of an optional text column: None and the empty string
are falsy, any non-empty string is truthy. -/
def truthyStr : Option String → Bool
  | none => false
  | some s => !s.isEmpty

/-- Python truthiness of the stored encode-prefix column: absent (None or
blank) is falsy; a present parsed prefix serializes to a non-empty
parameter string, hence is truthy. -/
def truthyParams : Option EncodePrefix → Bool
  | none => false
  | some _ => true

/-- A MatchReport row (models.py): an identifier-keyed, peppered match
submission. `encrypted` is declared null=False in the source, so it is absent
only before encrypt_match_report has run. -/
structure MatchReport where
  encrypted : Option (PepperedText String)
  encode_prefix : Option EncodePrefix
  salt : Option String
deriving DecidableEq, Repr

/-- A Report row (models.py), restricted to the fields the delivery core
reads or writes. `history` is the set of RecordHistorical rows pointing at
this record (append-only); `matchreport_set` is the reverse foreign-key set
of MatchReports for this record. Timestamps and contact fields are not
modelled. -/
structure Report where
  match_found : Bool
  encrypted : Option (Ciphertext RecordPlaintext)
  encrypted_eval : Option EscrowBlob
  encode_prefix : Option EncodePrefix
  salt : Option String
  history : List EscrowBlob
  matchreport_set : List MatchReport
deriving DecidableEq, Repr

/-- Report.encryption_setup (models.py 94-102): clears a truthy legacy salt,
derives a key from the passphrase and a fresh random salt (here the explicit
`freshSalt` argument standing for get_random_string()), stores the encode
prefix and saves; returns the key. -/
def Report.encryption_setup (r : Report) (passphrase freshSalt : String) :
    Report × DerivedKey :=
  let r1 := if truthyStr r.salt then { r with salt := none } else r
  let hasher := get_hasher
  let encoded := hasher.encode passphrase freshSalt
  let pk := hasher.split_encoded encoded
  ({ r1 with encode_prefix := some pk.1 }, pk.2)

/-- Report._store_for_user_decryption (models.py 127-136): runs
encryption_setup and stores the symmetric encryption of the json-serialized
record data; any failure here has no handler (the docstring: "500 the
request on fails"). -/
def Report.store_for_user_decryption (r : Report) (record_data : RecordData)
    (passphrase freshSalt : String) : Report :=
  let rk := Report.encryption_setup r passphrase freshSalt
  { rk.1 with
      encrypted := some (encrypt_text rk.2 (RecordPlaintext.jsonData record_data)) }

/-- Report._store_for_callisto_decryption (models.py 138-156): filters the
record data, gpg-encrypts it to the configured escrow public key, stores the
blob and appends a RecordHistorical row; every exception is caught and
logged, leaving the record unchanged. -/
def Report.store_for_callisto_decryption (cfg : Config) (r : Report)
    (record_data : RecordData) : Report :=
  match gpg_encrypt_data (filter_record_data record_data) cfg.evalPublicKey with
  | Except.ok blob =>
      { r with encrypted_eval := some blob, history := r.history ++ [blob] }
  | Except.error _ => r

/-- Report.encrypt_record (models.py 58-66): stores the user-decryptable
ciphertext, then the callisto-decryptable escrow blob, then saves. -/
def Report.encrypt_record (cfg : Config) (r : Report) (record_data : RecordData)
    (passphrase freshSalt : String) : Report :=
  Report.store_for_callisto_decryption cfg
    (Report.store_for_user_decryption r record_data passphrase freshSalt)
    record_data

/-- The value decrypt_record hands back: structured data (json.loads
succeeded) or the raw plaintext string (json.loads raised). -/
inductive DecryptResult
  | structured (data : RecordData)
  | rawString (text : String)
deriving DecidableEq, Repr

/-- Report._return_or_transform (models.py 109-125): list-shaped (legacy)
data is transformed to the current dict shape, re-encrypted and saved under
the same passphrase, and the transformed data returned; dict-shaped data is
returned unchanged. `migrationSalt` stands for the get_random_string() draw
consumed if re-encryption happens. -/
def Report.return_or_transform (cfg : Config) (r : Report) (data : RecordData)
    (passphrase migrationSalt : String) : DecryptResult × Report :=
  match data with
  | RecordData.list items =>
      let new_data := transform_if_old_format (RecordData.list items)
      (DecryptResult.structured new_data,
        Report.encrypt_record cfg r new_data passphrase migrationSalt)
  | RecordData.dict entries =>
      (DecryptResult.structured (RecordData.dict entries), r)

/-- Report.decrypt_record (models.py 68-86): with neither an encode prefix
nor a legacy salt, runs encryption_setup (fresh record); otherwise re-derives
the key with make_key from the stored parameters. Decrypts `encrypted`
(raising CryptoError on a wrong key, or on an absent/empty ciphertext), then
json-parses: structured data goes through _return_or_transform, an
unparseable plaintext is returned raw. `setupSalt` and `migrationSalt` stand
for the get_random_string() draws of the two branches that may consume one. -/
def Report.decrypt_record (cfg : Config) (r : Report)
    (passphrase setupSalt migrationSalt : String) :
    Except CryptoError (DecryptResult × Report) :=
  let rk :=
    if !(truthyParams (Report.encode_prefix r) || truthyStr r.salt) then
      Report.encryption_setup r passphrase setupSalt
    else
      (r, (make_key (Report.encode_prefix r) passphrase r.salt).2)
  match rk.1.encrypted with
  | none => Except.error CryptoError.cryptoError
  | some c =>
      match decrypt_text rk.2 c with
      | Except.error e => Except.error e
      | Except.ok (RecordPlaintext.jsonData data) =>
          Except.ok (Report.return_or_transform cfg rk.1 data passphrase migrationSalt)
      | Except.ok (RecordPlaintext.rawText s) =>
          Except.ok (DecryptResult.rawString s, rk.1)

/-- Report.withdraw_from_matching (models.py 88-92): deletes all MatchReports
of this record, clears match_found and saves. -/
def Report.withdraw_from_matching (r : Report) : Report :=
  { r with matchreport_set := [], match_found := false }

/-- MatchReport.encrypt_match_report (models.py 190-214): clears a truthy
legacy salt, derives a stretched identifier key from the identifier and a
fresh random salt (the explicit `freshSalt` argument), stores the encode
prefix, and stores the peppered symmetric encryption of the report text. -/
def MatchReport.encrypt_match_report (cfg : Config) (m : MatchReport)
    (report_text identifier freshSalt : String) : MatchReport :=
  let m1 := if truthyStr m.salt then { m with salt := none } else m
  let hasher := get_hasher
  let encoded := hasher.encode identifier freshSalt
  let pk := hasher.split_encoded encoded
  { m1 with
      encode_prefix := some pk.1
      encrypted := some (pepper cfg (encrypt_text pk.2 report_text)) }

/-- MatchReport.get_match (models.py 216-238): re-derives the stretched
identifier key from the stored parameters, removes the pepper and attempts
authenticated decryption; any decryption or pepper failure is caught and
yields None (no match). -/
def MatchReport.get_match (cfg : Config) (m : MatchReport) (identifier : String) :
    Option String :=
  let pk := make_key (MatchReport.encode_prefix m) identifier m.salt
  match m.encrypted with
  | none => none
  | some p =>
      match unpepper cfg p with
      | Except.error _ => none
      | Except.ok c =>
          match decrypt_text pk.2 c with
          | Except.ok text => some text
          | Except.error _ => none

/-- The sub-steps of Report.encrypt_record, for the control-flow model. -/
inductive EncryptStep
  | user_store
  | callisto_store
  | record_save
deriving DecidableEq, Repr

/-- Control-flow abstraction of Report.encrypt_record (models.py 58-66) under
Python exception semantics: _store_for_user_decryption runs first and has no
exception handler (its docstring: "store user decryptable data and 500 the
request on fails"), so if it raises, the call aborts there;
_store_for_callisto_decryption wraps its body in a BaseException handler, so
its own failure never stops the call, and self.save() then runs. Given which
underlying steps raise, returns the list of steps that execute and whether
the call completes. -/
def encrypt_record_control (userRaises escrowRaises : Bool) :
    List EncryptStep × Bool :=
  if userRaises then
    ([EncryptStep.user_store], false)
  else
    let _ := escrowRaises
    ([EncryptStep.user_store, EncryptStep.callisto_store, EncryptStep.record_save],
      true)

/-- A sample process configuration with a valid escrow public key, for
concrete evaluations. -/
def sampleConfig : Config :=
  { evalPublicKey := PublicKey.valid "orgkey", pepperSecret := "pepper0" }

/-- A sample process configuration whose escrow public key is invalid, so
escrow encryption fails. -/
def sampleConfigInvalid : Config :=
  { evalPublicKey := PublicKey.invalid, pepperSecret := "pepper0" }

/-- A sample fresh Report row, for concrete evaluations. -/
def sampleReport : Report :=
  { match_found := false, encrypted := none, encrypted_eval := none
    encode_prefix := none, salt := none, history := [], matchreport_set := [] }

/-- A sample fresh MatchReport row, for concrete evaluations. -/
def sampleMatchReport : MatchReport :=
  { encrypted := none, encode_prefix := none, salt := none }

/-- Claim C1: for every record payload P (a keyed mapping) and passphrase K,
decrypt_record(K) on a record on which encrypt_record(P, K) has completed
returns P exactly, with the record state unchanged by the decryption. -/
theorem C1_encrypt_decrypt_round_trip (cfg : Config) (r : Report)
    (entries : List (String × String)) (passphrase freshSalt s1 s2 : String) :
    Report.decrypt_record cfg
      (Report.encrypt_record cfg r (RecordData.dict entries) passphrase freshSalt)
      passphrase s1 s2
    = Except.ok (DecryptResult.structured (RecordData.dict entries),
        Report.encrypt_record cfg r (RecordData.dict entries) passphrase freshSalt) := by
  cases hs : truthyStr r.salt <;> cases hk : cfg.evalPublicKey <;>
    simp [Report.decrypt_record, Report.encrypt_record, Report.store_for_user_decryption,
      Report.store_for_callisto_decryption, Report.encryption_setup, Hasher.encode,
      Hasher.split_encoded, get_hasher, gpg_encrypt_data, filter_record_data, make_key,
      decrypt_text, encrypt_text, truthyParams, Report.return_or_transform, hs, hk]

/-- Claim C2: for every pair of distinct passphrases K1 and K2,
decrypt_record(K2) on a record encrypted with encrypt_record(P, K1) fails
with the decryption error surfaced to the caller; it never returns
plaintext. -/
theorem C2_wrong_passphrase_decryption_fails (cfg : Config) (r : Report)
    (record_data : RecordData) (k1 k2 freshSalt s1 s2 : String) (h : k1 ≠ k2) :
    Report.decrypt_record cfg
      (Report.encrypt_record cfg r record_data k1 freshSalt) k2 s1 s2
    = Except.error CryptoError.cryptoError := by
  cases hs : truthyStr r.salt <;> cases hk : cfg.evalPublicKey <;>
    simp [Report.decrypt_record, Report.encrypt_record, Report.store_for_user_decryption,
      Report.store_for_callisto_decryption, Report.encryption_setup, Hasher.encode,
      Hasher.split_encoded, get_hasher, gpg_encrypt_data, filter_record_data, make_key,
      decrypt_text, encrypt_text, truthyParams, hs, hk, h]

/-- Witness for C2 at the concrete distinct passphrases "pass1" and "pass2". -/
theorem C2_wrong_passphrase_decryption_fails_witness :
    ("pass1" : String) ≠ "pass2"
    ∧ Report.decrypt_record sampleConfig
        (Report.encrypt_record sampleConfig sampleReport
          (RecordData.dict [("key", "value")]) "pass1" "salt1") "pass2" "s1" "s2"
      = Except.error CryptoError.cryptoError :=
  ⟨by decide, C2_wrong_passphrase_decryption_fails sampleConfig sampleReport
    (RecordData.dict [("key", "value")]) "pass1" "pass2" "salt1" "s1" "s2" (by decide)⟩

/-- Claim C3: for every payload and identifier I, get_match(I) on a match
submission created with encrypt_match_report(payload, I) returns the
payload. -/
theorem C3_match_identifier_round_trip (cfg : Config) (m : MatchReport)
    (report_text identifier freshSalt : String) :
    MatchReport.get_match cfg
      (MatchReport.encrypt_match_report cfg m report_text identifier freshSalt)
      identifier
    = some report_text := by
  cases hs : truthyStr m.salt <;>
    simp [MatchReport.get_match, MatchReport.encrypt_match_report, Hasher.encode,
      Hasher.split_encoded, get_hasher, make_key, decrypt_text, encrypt_text,
      pepper, unpepper, hs]

/-- Claim C4: for every pair of distinct identifiers I1 and I2, get_match(I2)
on a submission created with encrypt_match_report(payload, I1) returns None:
the decryption failure is caught internally and treated as a non-match. -/
theorem C4_wrong_identifier_no_match (cfg : Config) (m : MatchReport)
    (report_text i1 i2 freshSalt : String) (h : i1 ≠ i2) :
    MatchReport.get_match cfg
      (MatchReport.encrypt_match_report cfg m report_text i1 freshSalt) i2
    = none := by
  cases hs : truthyStr m.salt <;>
    simp [MatchReport.get_match, MatchReport.encrypt_match_report, Hasher.encode,
      Hasher.split_encoded, get_hasher, make_key, decrypt_text, encrypt_text,
      pepper, unpepper, hs, h]

/-- Witness for C4 at the concrete distinct identifiers "alice" and "bob". -/
theorem C4_wrong_identifier_no_match_witness :
    ("alice" : String) ≠ "bob"
    ∧ MatchReport.get_match sampleConfig
        (MatchReport.encrypt_match_report sampleConfig sampleMatchReport
          "report text" "alice" "salt1") "bob"
      = none :=
  ⟨by decide, C4_wrong_identifier_no_match sampleConfig sampleMatchReport "report text"
    "alice" "bob" "salt1" (by decide)⟩

/-- Claim C5: if the escrow encryption step fails, encrypt_record(P, K) still
completes: the user-path ciphertext and derivation parameters are stored, the
escrow fields and history are left untouched, and a subsequent
decrypt_record(K) still returns P. -/
theorem C5_escrow_failure_does_not_block_user_path (cfg : Config) (r : Report)
    (entries : List (String × String)) (passphrase freshSalt s1 s2 : String)
    (h : gpg_encrypt_data (filter_record_data (RecordData.dict entries))
      cfg.evalPublicKey = Except.error EscrowError.escrowEncryptionFailed) :
    (Report.encrypt_record cfg r (RecordData.dict entries) passphrase freshSalt).encrypted
      = some (encrypt_text
          { algorithm := "argon2", iterations := 2, salt := freshSalt
            secret := passphrase }
          (RecordPlaintext.jsonData (RecordData.dict entries)))
    ∧ Report.encode_prefix
        (Report.encrypt_record cfg r (RecordData.dict entries) passphrase freshSalt)
      = some { algorithm := "argon2", iterations := 2, salt := freshSalt }
    ∧ (Report.encrypt_record cfg r (RecordData.dict entries) passphrase freshSalt).encrypted_eval
      = r.encrypted_eval
    ∧ (Report.encrypt_record cfg r (RecordData.dict entries) passphrase freshSalt).history
      = r.history
    ∧ Report.decrypt_record cfg
        (Report.encrypt_record cfg r (RecordData.dict entries) passphrase freshSalt)
        passphrase s1 s2
      = Except.ok (DecryptResult.structured (RecordData.dict entries),
          Report.encrypt_record cfg r (RecordData.dict entries) passphrase freshSalt) := by
  cases hs : truthyStr r.salt <;>
    simp [Report.decrypt_record, Report.encrypt_record, Report.store_for_user_decryption,
      Report.store_for_callisto_decryption, Report.encryption_setup, Hasher.encode,
      Hasher.split_encoded, get_hasher, make_key,
      decrypt_text, encrypt_text, truthyParams, Report.return_or_transform, hs, h]

/-- Witness for C5 at a concrete configuration whose escrow public key is
invalid. -/
theorem C5_escrow_failure_does_not_block_user_path_witness :
    gpg_encrypt_data (filter_record_data (RecordData.dict [("key", "value")]))
        sampleConfigInvalid.evalPublicKey
      = Except.error EscrowError.escrowEncryptionFailed
    ∧ ((Report.encrypt_record sampleConfigInvalid sampleReport
          (RecordData.dict [("key", "value")]) "pass1" "salt1").encrypted
        = some (encrypt_text
            { algorithm := "argon2", iterations := 2, salt := "salt1"
              secret := "pass1" }
            (RecordPlaintext.jsonData (RecordData.dict [("key", "value")])))
      ∧ Report.encode_prefix
          (Report.encrypt_record sampleConfigInvalid sampleReport
            (RecordData.dict [("key", "value")]) "pass1" "salt1")
        = some { algorithm := "argon2", iterations := 2, salt := "salt1" }
      ∧ (Report.encrypt_record sampleConfigInvalid sampleReport
          (RecordData.dict [("key", "value")]) "pass1" "salt1").encrypted_eval
        = sampleReport.encrypted_eval
      ∧ (Report.encrypt_record sampleConfigInvalid sampleReport
          (RecordData.dict [("key", "value")]) "pass1" "salt1").history
        = sampleReport.history
      ∧ Report.decrypt_record sampleConfigInvalid
          (Report.encrypt_record sampleConfigInvalid sampleReport
            (RecordData.dict [("key", "value")]) "pass1" "salt1") "pass1" "s1" "s2"
        = Except.ok (DecryptResult.structured (RecordData.dict [("key", "value")]),
            Report.encrypt_record sampleConfigInvalid sampleReport
              (RecordData.dict [("key", "value")]) "pass1" "salt1")) :=
  ⟨by rfl, C5_escrow_failure_does_not_block_user_path sampleConfigInvalid sampleReport
    [("key", "value")] "pass1" "salt1" "s1" "s2" (by rfl)⟩

/-- Counterexample to claim C6 as stated: in the control-flow model of
encrypt_record, when the user-path step raises, the escrow step is not among
the executed steps — the exception propagates before
_store_for_callisto_decryption is reached. -/
theorem C6_escrow_step_skipped_when_user_step_raises :
    ¬ EncryptStep.callisto_store ∈ (encrypt_record_control true false).1 := by
  decide

/-- Claim C6 (amended): when the user-path step succeeds, both sub-steps and
the save execute and the call completes, even if the escrow step fails (its
exception is caught); but when the user-path step fails, encrypt_record
aborts after it and the escrow step does not run. -/
theorem C6_amended_control_flow (escrowRaises : Bool) :
    encrypt_record_control false escrowRaises
      = ([EncryptStep.user_store, EncryptStep.callisto_store, EncryptStep.record_save],
          true)
    ∧ encrypt_record_control true escrowRaises = ([EncryptStep.user_store], false) := by
  cases escrowRaises <;> simp [encrypt_record_control]

/-- Claim C7: a legacy list-shaped plaintext is returned by decrypt_record
transformed into the current mapping shape, with the record immediately
re-encrypted and saved under the same passphrase, and a subsequent
decrypt_record with that passphrase returns the mapping directly with the
state unchanged (no second migration). -/
theorem C7_legacy_migrate_on_read (cfg : Config) (r : Report) (p : EncodePrefix)
    (items : List String) (passphrase s1 s2 s3 s4 : String) :
    (∃ entries, transform_if_old_format (RecordData.list items) = RecordData.dict entries)
    ∧ Report.decrypt_record cfg
        { r with
            encode_prefix := some p
            encrypted := some (encrypt_text
              { algorithm := p.algorithm, iterations := p.iterations, salt := p.salt
                secret := passphrase }
              (RecordPlaintext.jsonData (RecordData.list items))) }
        passphrase s1 s2
      = Except.ok (DecryptResult.structured (transform_if_old_format (RecordData.list items)),
          Report.encrypt_record cfg
            { r with
                encode_prefix := some p
                encrypted := some (encrypt_text
                  { algorithm := p.algorithm, iterations := p.iterations, salt := p.salt
                    secret := passphrase }
                  (RecordPlaintext.jsonData (RecordData.list items))) }
            (transform_if_old_format (RecordData.list items)) passphrase s2)
    ∧ Report.decrypt_record cfg
        (Report.encrypt_record cfg
          { r with
              encode_prefix := some p
              encrypted := some (encrypt_text
                { algorithm := p.algorithm, iterations := p.iterations, salt := p.salt
                  secret := passphrase }
                (RecordPlaintext.jsonData (RecordData.list items))) }
          (transform_if_old_format (RecordData.list items)) passphrase s2)
        passphrase s3 s4
      = Except.ok (DecryptResult.structured (transform_if_old_format (RecordData.list items)),
          Report.encrypt_record cfg
            { r with
                encode_prefix := some p
                encrypted := some (encrypt_text
                  { algorithm := p.algorithm, iterations := p.iterations, salt := p.salt
                    secret := passphrase }
                  (RecordPlaintext.jsonData (RecordData.list items))) }
            (transform_if_old_format (RecordData.list items)) passphrase s2) := by
  refine ⟨⟨items.enum.map (fun q => (toString q.1, q.2)),
    by simp [transform_if_old_format]⟩, ?_, ?_⟩ <;>
    cases hs : truthyStr r.salt <;> cases hk : cfg.evalPublicKey <;>
      simp [Report.decrypt_record, Report.encrypt_record, Report.store_for_user_decryption,
        Report.store_for_callisto_decryption, Report.encryption_setup, Hasher.encode,
        Hasher.split_encoded, get_hasher, gpg_encrypt_data, filter_record_data, make_key,
        decrypt_text, encrypt_text, truthyParams, truthyStr, Report.return_or_transform,
        transform_if_old_format, hs, hk]

/-- Claim C8: a record whose decrypted plaintext is not parseable as JSON is
returned by decrypt_record, under the correct passphrase, as the raw opaque
string, without failing and without changing the record. -/
theorem C8_unparseable_plaintext_returned_raw (cfg : Config) (r : Report)
    (p : EncodePrefix) (text passphrase s1 s2 : String) :
    Report.decrypt_record cfg
      { r with
          encode_prefix := some p
          encrypted := some (encrypt_text
            { algorithm := p.algorithm, iterations := p.iterations, salt := p.salt
              secret := passphrase }
            (RecordPlaintext.rawText text)) }
      passphrase s1 s2
    = Except.ok (DecryptResult.rawString text,
        { r with
            encode_prefix := some p
            encrypted := some (encrypt_text
              { algorithm := p.algorithm, iterations := p.iterations, salt := p.salt
                secret := passphrase }
              (RecordPlaintext.rawText text)) }) := by
  simp [Report.decrypt_record, make_key, decrypt_text, encrypt_text, truthyParams]

/-- Claim C9: after withdraw_from_matching, the record's set of match
submissions is empty (so no get_match against them is possible) and its
match_found flag reads false. -/
theorem C9_withdraw_deletes_submissions_and_clears_flag (r : Report) :
    (Report.withdraw_from_matching r).matchreport_set = []
    ∧ (Report.withdraw_from_matching r).match_found = false := by
  simp [Report.withdraw_from_matching]

/-- Counterexample to claim C10 as stated: on a record whose legacy salt
column holds the empty string (falsy in Python but not NULL),
encryption_setup generates fresh derivation parameters yet leaves the salt
column non-null, because the source clears it only when it is truthy. -/
theorem C10_empty_string_salt_not_cleared :
    Report.salt
        ((Report.encryption_setup
          { match_found := false, encrypted := none, encrypted_eval := none
            encode_prefix := none, salt := some "", history := []
            matchreport_set := [] }
          "pass1" "salt1").1)
      ≠ none
    ∧ Report.encode_prefix
        ((Report.encryption_setup
          { match_found := false, encrypted := none, encrypted_eval := none
            encode_prefix := none, salt := some "", history := []
            matchreport_set := [] }
          "pass1" "salt1").1)
      = some { algorithm := "argon2", iterations := 2, salt := "salt1" } := by
  decide

/-- Claim C10 (amended): whenever new-style derivation parameters are
generated (by Report.encryption_setup or MatchReport.encrypt_match_report), a
truthy (non-empty) legacy salt is cleared to null — an empty-string salt is
left in place — so the resulting object carries a fresh encode prefix and
never a truthy legacy salt. -/
theorem C10_amended_truthy_salt_cleared (cfg : Config) (r : Report)
    (m : MatchReport) (passphrase identifier report_text s1 s2 : String) :
    truthyStr (Report.salt ((Report.encryption_setup r passphrase s1).1)) = false
    ∧ truthyParams (Report.encode_prefix ((Report.encryption_setup r passphrase s1).1))
      = true
    ∧ truthyStr (MatchReport.salt
        (MatchReport.encrypt_match_report cfg m report_text identifier s2)) = false
    ∧ truthyParams (MatchReport.encode_prefix
        (MatchReport.encrypt_match_report cfg m report_text identifier s2)) = true := by
  refine ⟨?_, ?_, ?_, ?_⟩
  · cases h : r.salt
    · simp [Report.encryption_setup, truthyStr, h]
    · rename_i s'
      cases hE : s'.isEmpty <;>
        simp [Report.encryption_setup, truthyStr, h, hE]
  · cases h : truthyStr r.salt <;>
      simp [Report.encryption_setup, truthyParams, h]
  · cases h : m.salt
    · simp [MatchReport.encrypt_match_report, truthyStr, h]
    · rename_i s'
      cases hE : s'.isEmpty <;>
        simp [MatchReport.encrypt_match_report, truthyStr, h, hE]
  · cases h : truthyStr m.salt <;>
      simp [MatchReport.encrypt_match_report, truthyParams, h]
